import Mathlib

/-!
Shallow embedding of the snapgram data-access layer
(`src/lib/appwrite/api.ts`) and of the cache-invalidation wiring of its
react-query layer.  Remote backend calls are modelled by explicit outcome
oracles (`Remote`); the backend's document database and blob storage are a
`St` record threaded through each operation.  Every function is translated
from the TypeScript source: `undefined` results become `none`, a JavaScript
exception escaping an `async` function becomes `FnResult.raised`, and the
stable `Array.prototype.sort` becomes `List.mergeSort`.
-/

namespace Snapgram

/-- An opaque error value (a thrown JavaScript exception). `generic` is the
bare `throw Error` the source uses; `remote n` stands for a backend error. -/
inductive Err where
  | generic
  | remote (n : Nat)
deriving DecidableEq, Repr

/-- Outcome of one remote SDK call: it resolves with a truthy value, resolves
with a falsy value, or rejects (throws). -/
inductive Remote (α : Type) where
  | ok (a : α)
  | null
  | threw (e : Err)
deriving DecidableEq, Repr

/-- Result of one exported api.ts function as observed by its caller: the
promise resolves with a value (`none` = `undefined`) or rejects. -/
inductive FnResult (α : Type) where
  | value (a : Option α)
  | raised (e : Err)
deriving DecidableEq, Repr

/-- A post document in the posts collection (appwrite `Models.Document`
fields used by the source plus the attributes api.ts writes). -/
structure PostDoc where
  id : String
  creator : String
  caption : String
  imageUrl : String
  imageId : String
  location : String
  tags : List String
  likes : List String
  createdAt : Nat
  updatedAt : Nat
deriving DecidableEq, Repr

/-- A user document in the users collection; `following` is the list of
followed users' ids (`currentUser.following[i].followedUser.$id`). -/
structure UserDoc where
  id : String
  accountId : String
  name : String
  username : String
  email : String
  bio : String
  imageUrl : String
  imageId : String
  following : List String
deriving DecidableEq, Repr

/-- Backend state: blob-storage file ids, the posts collection, the users
collection, and a log of every id passed to `storage.deleteFile` (used to
count compensating deletes). -/
structure St where
  files : List String
  posts : List PostDoc
  users : List UserDoc
  deleteFileLog : List String
deriving DecidableEq, Repr

/-- Model of `Query.equal("creator", userId)` over the posts collection. -/
def postsByCreator (db : List PostDoc) (uid : String) : List PostDoc :=
  db.filter (fun p => p.creator == uid)

/-- Comparator of `getFollowingPosts`' sort:
`(a, b) => new Date(b.$createdAt).getTime() - new Date(a.$createdAt).getTime()`,
i.e. creation time descending; JavaScript sort is stable. -/
def createdDesc (a b : PostDoc) : Bool :=
  decide (b.createdAt ≤ a.createdAt)

/-- Comparator of `Query.orderDesc("$updatedAt")` used by `getAllPosts`. -/
def updatedDesc (a b : PostDoc) : Bool :=
  decide (b.updatedAt ≤ a.updatedAt)

/-- Model of `getFollowingPosts()`: fetch the current user (`none` models a failed
`getCurrentUser`, which makes the function throw into its own catch and
return `undefined`), collect the followed users' ids plus the current user's
id, issue one `Query.equal("creator", id)` list query per id, flatten the
result sets and sort them by creation timestamp descending. -/
def getFollowingPosts (db : List PostDoc) (currentUser : Option UserDoc) :
    Option (List PostDoc) :=
  match currentUser with
  | none => none
  | some u =>
    let userIds := u.following ++ [u.id]
    let fetchPosts := userIds.map (postsByCreator db)
    let postList := (fetchPosts.flatMap id).mergeSort createdDesc
    some postList

/-- Model of `getHomeFeedPosts(page, pageSize = 3)`: client-side slice
`[(page-1)*pageSize, (page-1)*pageSize + pageSize)` of `getFollowingPosts`. -/
def getHomeFeedPosts (db : List PostDoc) (currentUser : Option UserDoc)
    (page : Nat) (pageSize : Nat := 3) : Option (List PostDoc) :=
  match getFollowingPosts db currentUser with
  | none => none
  | some allPosts =>
    some ((allPosts.drop ((page - 1) * pageSize)).take pageSize)

/-- Model of `getAllPosts()`: list the posts collection ordered by `$updatedAt`
descending. -/
def getAllPosts (db : List PostDoc) : Option (List PostDoc) :=
  some (db.mergeSort updatedDesc)

/-- Model of `getExplorePosts(page, pageSize = 9)`: client-side slice of
`getAllPosts`. -/
def getExplorePosts (db : List PostDoc) (page : Nat) (pageSize : Nat := 9) :
    Option (List PostDoc) :=
  match getAllPosts db with
  | none => none
  | some allPosts =>
    some ((allPosts.drop ((page - 1) * pageSize)).take pageSize)

/-- Model of `getUserPosts(userId?)`: guard-returns `undefined` when the id is
missing, otherwise lists the user's posts ordered by `$createdAt`
descending. -/
def getUserPosts (db : List PostDoc) (userId : Option String) :
    Option (List PostDoc) :=
  match userId with
  | none => none
  | some uid => some ((postsByCreator db uid).mergeSort createdDesc)

/-- Model of `getUserProfilePosts(userId, page, pageSize = 6)`: client-side slice of
`getUserPosts`. -/
def getUserProfilePosts (db : List PostDoc) (userId : String) (page : Nat)
    (pageSize : Nat := 6) : Option (List PostDoc) :=
  match getUserPosts db (some userId) with
  | none => none
  | some allPosts =>
    some ((allPosts.drop ((page - 1) * pageSize)).take pageSize)

/-- Splitting a character list on a separator, the way JavaScript
`String.prototype.split` treats a one-character separator: `split` of the
empty string is `[""]`, and a trailing separator yields a trailing empty
field. -/
def splitChars (sep : Char) : List Char → List (List Char)
  | [] => [[]]
  | c :: rest =>
    match splitChars sep rest with
    | [] => if c = sep then [[], []] else [[c]]
    | g :: gs => if c = sep then [] :: g :: gs else (c :: g) :: gs

/-- Tag conversion `post.tags?.replace(/ /g, "").split(",") || []`: drop
every space character, split on commas; an absent tags string yields `[]`.
(For a present string the split result is a non-empty array, hence truthy,
so the `|| []` branch is taken only for `undefined`.) -/
def convertTags (tags : Option String) : List String :=
  match tags with
  | none => []
  | some s =>
    (splitChars ',' (s.data.filter (fun c => c ≠ ' '))).map String.mk

/-- Per-call behaviour of the file-storage backend during one api.ts
invocation: the outcome of `storage.createFile` (with the fresh id the
backend would assign), the value of `storage.getFilePreview` per file id
(`none` models a falsy url or a caught throw inside `getFilePreview`), and
whether `storage.deleteFile` succeeds or throws per file id. -/
structure FileEnv where
  uploadOutcome : Remote String
  previewUrl : String → Option String
  deleteOk : String → Bool

/-- Model of `uploadFile(file)`: wraps `storage.createFile` in try/catch, returning
the uploaded file (its id here) or `undefined`.  On success the file id is
added to storage. -/
def uploadFileRun (env : FileEnv) (σ : St) : Option String × St :=
  match env.uploadOutcome with
  | .ok fid => (some fid, { σ with files := σ.files ++ [fid] })
  | .null => (none, σ)
  | .threw _ => (none, σ)

/-- Model of `deleteFile(fileId)`: logs the invocation, then `storage.deleteFile`
either removes the file (returning `{status:"ok"}`) or throws into the
wrapper's catch, which returns `undefined`. -/
def deleteFileRun (env : FileEnv) (fid : String) (σ : St) :
    Option String × St :=
  let σ1 := { σ with deleteFileLog := σ.deleteFileLog ++ [fid] }
  if env.deleteOk fid then
    (some "ok", { σ1 with files := σ1.files.filter (fun g => g != fid) })
  else
    (none, σ1)

/-- Input type `INewPost` of `createPost`; `file` holds the selected local files
(modelled by opaque names), `tags` the optional raw tag string. -/
structure INewPost where
  userId : String
  caption : String
  file : List String
  location : String
  tags : Option String

/-- Backend behaviour for one `createPost` call: file-storage behaviour plus
the outcome of `databases.createDocument` and the server-assigned id and
timestamps of the new document. -/
structure CreatePostEnv where
  fileEnv : FileEnv
  createDocOutcome : Remote Unit
  newPostId : String
  now : Nat

/-- Model of `createPost(post)`: upload the image (bail out to catch if that yields
nothing), compute the preview url (on a falsy url, delete the uploaded file
and bail out), convert the tag string, then `databases.createDocument`.  A
falsy new document triggers the compensating `deleteFile` of the uploaded
id; a createDocument rejection goes straight to the catch.  All failures
return `undefined`. -/
def createPostRun (env : CreatePostEnv) (post : INewPost) (σ : St) :
    Option PostDoc × St :=
  match uploadFileRun env.fileEnv σ with
  | (none, σ1) => (none, σ1)
  | (some fid, σ1) =>
    match env.fileEnv.previewUrl fid with
    | none =>
      let σ2 := (deleteFileRun env.fileEnv fid σ1).2
      (none, σ2)
    | some fileUrl =>
      match env.createDocOutcome with
      | .threw _ => (none, σ1)
      | .null =>
        let σ2 := (deleteFileRun env.fileEnv fid σ1).2
        (none, σ2)
      | .ok _ =>
        let doc : PostDoc :=
          { id := env.newPostId
            creator := post.userId
            caption := post.caption
            imageUrl := fileUrl
            imageId := fid
            location := post.location
            tags := convertTags post.tags
            likes := []
            createdAt := env.now
            updatedAt := env.now }
        (some doc, { σ1 with posts := σ1.posts ++ [doc] })

/-- Input type `IUpdatePost` of `updatePost`; `imageId`/`imageUrl` are the
post's current (old) image, `file` the optional replacement. -/
structure IUpdatePost where
  postId : String
  caption : String
  imageId : String
  imageUrl : String
  file : List String
  location : String
  tags : Option String

/-- Backend behaviour for one `updatePost` call. -/
structure UpdatePostEnv where
  fileEnv : FileEnv
  updateDocOutcome : Remote Unit
  now : Nat

/-- Field update applied by `databases.updateDocument` in `updatePost`. -/
def applyPostUpdate (post : IUpdatePost) (imageUrl imageId : String)
    (now : Nat) (p : PostDoc) : PostDoc :=
  if p.id == post.postId then
    { p with
        caption := post.caption
        imageUrl := imageUrl
        imageId := imageId
        location := post.location
        tags := convertTags post.tags
        updatedAt := now }
  else p

/-- The `databases.updateDocument` step of `updatePost` and what follows it:
on a rejection, fall to the catch (no cleanup); on a falsy updated document,
`await deleteFile(post.imageId)` — the OLD image id — then throw into the
catch; on success, return the updated document.  The source never deletes
the replaced old file on the success path. -/
def updatePostWrite (env : UpdatePostEnv) (post : IUpdatePost)
    (imageUrl imageId : String) (σ : St) : Option PostDoc × St :=
  match env.updateDocOutcome with
  | .threw _ => (none, σ)
  | .null =>
    let σ2 := (deleteFileRun env.fileEnv post.imageId σ).2
    (none, σ2)
  | .ok _ =>
    let posts2 := σ.posts.map (applyPostUpdate post imageUrl imageId env.now)
    (posts2.find? (fun p => p.id == post.postId), { σ with posts := posts2 })

/-- Model of `updatePost(post)`: when a replacement file is present, upload it and
compute its preview url (deleting the new upload and bailing out if the url
is falsy); then write the document via `updatePostWrite`. -/
def updatePostRun (env : UpdatePostEnv) (post : IUpdatePost) (σ : St) :
    Option PostDoc × St :=
  if post.file.length > 0 then
    match uploadFileRun env.fileEnv σ with
    | (none, σ1) => (none, σ1)
    | (some fid, σ1) =>
      match env.fileEnv.previewUrl fid with
      | none =>
        let σ2 := (deleteFileRun env.fileEnv fid σ1).2
        (none, σ2)
      | some url => updatePostWrite env post url fid σ1
  else
    updatePostWrite env post post.imageUrl post.imageId σ

/-- Model of `deletePost(postId, imageId)`: the check `if (!postId || !imageId) throw Error`
sits OUTSIDE the try block, so a missing id rejects the promise.  Otherwise
`databases.deleteDocument` removes the post document (or throws into the
catch); `storage.deleteFile` is never called. -/
def deletePostRun (deleteDocOk : Bool) (postId imageId : String) (σ : St) :
    FnResult String × St :=
  if postId == "" || imageId == "" then
    (.raised .generic, σ)
  else if deleteDocOk then
    (.value (some "ok"), { σ with posts := σ.posts.filter (fun p => p.id != postId) })
  else
    (.value none, σ)

/-- Input type `IUpdateUser` of `updateUser`. -/
structure IUpdateUser where
  userId : String
  name : String
  username : String
  email : String
  bio : String
  imageId : String
  imageUrl : String
  file : List String

/-- Backend behaviour for one `updateUser` call: file storage, the outcome
of `databases.updateDocument`, and the outcome of `account.updateName`. -/
structure UpdateUserEnv where
  fileEnv : FileEnv
  updateDocOutcome : Remote Unit
  updateNameOutcome : Remote Unit

/-- Field update applied by `databases.updateDocument` in `updateUser`. -/
def applyUserUpdate (user : IUpdateUser) (imageUrl imageId : String)
    (u : UserDoc) : UserDoc :=
  if u.id == user.userId then
    { u with
        name := user.name
        username := user.username
        email := user.email
        bio := user.bio
        imageUrl := imageUrl
        imageId := imageId }
  else u

/-- The write phase of `updateUser` once the image to store is fixed:
`databases.updateDocument` (a rejection goes straight to the catch with no
cleanup), then `account.updateName` (likewise).  If either resolved falsy,
the newly uploaded file (`image.imageId`) is deleted when a replacement was
uploaded, and the function throws into its catch.  On full success the OLD
file (`user.imageId`) is deleted when a replacement was uploaded — and the
function ends with NO return statement, so it resolves with `undefined`
either way. -/
def updateUserWrite (env : UpdateUserEnv) (user : IUpdateUser)
    (hasFileToUpdate : Bool) (imageUrl imageId : String) (σ : St) :
    Option UserDoc × St :=
  match env.updateDocOutcome with
  | .threw _ => (none, σ)
  | .null =>
    match env.updateNameOutcome with
    | .threw _ => (none, σ)
    | _ =>
      let σ2 := if hasFileToUpdate then (deleteFileRun env.fileEnv imageId σ).2 else σ
      (none, σ2)
  | .ok _ =>
    let σ1 := { σ with users := σ.users.map (applyUserUpdate user imageUrl imageId) }
    match env.updateNameOutcome with
    | .threw _ => (none, σ1)
    | .null =>
      let σ2 := if hasFileToUpdate then (deleteFileRun env.fileEnv imageId σ1).2 else σ1
      (none, σ2)
    | .ok _ =>
      let σ2 :=
        if user.imageId != "" && hasFileToUpdate then
          (deleteFileRun env.fileEnv user.imageId σ1).2
        else σ1
      (none, σ2)

/-- Model of `updateUser(user)`: optionally upload the replacement file (deleting it
again and bailing out if its preview url is falsy), then run the write
phase.  Every path resolves with `undefined`. -/
def updateUserRun (env : UpdateUserEnv) (user : IUpdateUser) (σ : St) :
    Option UserDoc × St :=
  if user.file.length > 0 then
    match uploadFileRun env.fileEnv σ with
    | (none, σ1) => (none, σ1)
    | (some fid, σ1) =>
      match env.fileEnv.previewUrl fid with
      | none =>
        let σ2 := (deleteFileRun env.fileEnv fid σ1).2
        (none, σ2)
      | some url => updateUserWrite env user true url fid σ1
  else
    updateUserWrite env user false user.imageUrl user.imageId σ

/-- Model of `likePost(postId, likesArray)`: `databases.updateDocument` replaces the
post's `likes` attribute with exactly the passed array and resolves with the
updated document; a falsy document or a rejection makes the function resolve
with `undefined`. -/
def likePostRun (outcome : Remote Unit) (db : List PostDoc) (postId : String)
    (likesArray : List String) : Option PostDoc × List PostDoc :=
  match outcome with
  | .threw _ => (none, db)
  | .null => (none, db)
  | .ok _ =>
    let db2 := db.map (fun p => if p.id == postId then { p with likes := likesArray } else p)
    (db2.find? (fun p => p.id == postId), db2)

/-- Result of `createUserAccount` as seen by its caller: the saved user
document's id, a caught error value returned as the result (`return error`
in the catch), or `undefined` (when `saveUserToDB` swallowed its own
failure). -/
inductive CUAVal where
  | user (docId : String)
  | caughtError (e : Err)
deriving DecidableEq, Repr

/-- Backend behaviour for one `createUserAccount` call: the outcome of
`account.create` (with the new account id) and of the
`databases.createDocument` inside `saveUserToDB` (with the new document
id). -/
structure CreateUserEnv where
  accountCreate : Remote String
  saveUserDoc : Remote String

/-- Model of `createUserAccount(user)`: `account.create` rejecting or resolving falsy
throws into the catch, which LOGS THE ERROR AND RETURNS IT as the
function's result.  Otherwise `saveUserToDB` runs `databases.createDocument`
in its own try/catch and returns `undefined` on failure, which
`createUserAccount` passes through unchanged.  No path re-throws. -/
def createUserAccountRun (env : CreateUserEnv) : FnResult CUAVal :=
  match env.accountCreate with
  | .threw e => .value (some (.caughtError e))
  | .null => .value (some (.caughtError .generic))
  | .ok _ =>
    match env.saveUserDoc with
    | .ok docId => .value (some (.user docId))
    | .null => .value none
    | .threw _ => .value none

/-- Model of `getPostById(postId?)`: the check `if (!postId) throw Error` sits OUTSIDE the try
block, so a missing id rejects the promise without any remote call; the
second component counts remote calls issued.  With an id, `getDocument`
failures of either kind are caught and yield `undefined`. -/
def getPostByIdRun (outcome : Remote Unit) (db : List PostDoc)
    (postId : Option String) : FnResult PostDoc × Nat :=
  match postId with
  | none => (.raised .generic, 0)
  | some pid =>
    match outcome with
    | .threw _ => (.value none, 1)
    | .null => (.value none, 1)
    | .ok _ => (.value (db.find? (fun p => p.id == pid)), 1)

/-- Model of `getUserById(userId?)`: the guard `if (!userId) return` resolves `undefined`
with no remote call; with an id, `getDocument` failures are caught (or the
falsy document guard-returns) and yield `undefined`. -/
def getUserByIdRun (outcome : Remote Unit) (users : List UserDoc)
    (userId : Option String) : FnResult UserDoc × Nat :=
  match userId with
  | none => (.value none, 0)
  | some uid =>
    match outcome with
    | .threw _ => (.value none, 1)
    | .null => (.value none, 1)
    | .ok _ => (.value (users.find? (fun u => u.id == uid)), 1)

/-- Cache keys of the react-query layer (`QUERY_KEYS` plus the id parameter
where the layer appends one). -/
inductive QueryKey where
  | postById (id : Option String)
  | homeFeed
  | explore
  | currentUser
  | userById (id : Option String)
  | userFollowing
deriving DecidableEq, Repr

/-- Invalidation of `useLikePost().onSuccess(data)`:
`[GET_POST_BY_ID, data?.$id]`, `[GET_HOME_FEED_POSTS]` and
`[GET_CURRENT_USER]`. -/
def useLikePostOnSuccess (data : Option PostDoc) : List QueryKey :=
  [.postById (data.map (fun p => p.id)), .homeFeed, .currentUser]

/-- Invalidation of `useUpdateUser().onSuccess(data)`: `[GET_CURRENT_USER]` and
`[GET_USER_BY_ID, data?.$id]`. -/
def useUpdateUserOnSuccess (data : Option UserDoc) : List QueryKey :=
  [.currentUser, .userById (data.map (fun u => u.id))]

/-- Sample post document used as concrete input by witnesses. -/
def samplePost : PostDoc :=
  { id := "p1"
    creator := "u1"
    caption := "hello"
    imageUrl := "url1"
    imageId := "img1"
    location := ""
    tags := []
    likes := ["u1"]
    createdAt := 5
    updatedAt := 5 }

/-- Sample user document used as concrete input by witnesses: `u1` follows
`u2`. -/
def sampleUser : UserDoc :=
  { id := "u1"
    accountId := "a1"
    name := "n"
    username := "un"
    email := "e"
    bio := ""
    imageUrl := ""
    imageId := ""
    following := ["u2"] }

/-! Helper lemmas shared by the claim theorems. -/

theorem createdDesc_trans (a b c : PostDoc) :
    createdDesc a b = true → createdDesc b c = true → createdDesc a c = true := by
  simp only [createdDesc, decide_eq_true_eq]
  omega

theorem createdDesc_total (a b : PostDoc) :
    (createdDesc a b || createdDesc b a) = true := by
  simp only [createdDesc, Bool.or_eq_true, decide_eq_true_eq]
  omega

theorem find?_map_of_id_invariant (f : PostDoc → PostDoc)
    (hid : ∀ p, (f p).id = p.id) (db : List PostDoc) (pid : String) :
    (db.map f).find? (fun p => p.id == pid)
      = (db.find? (fun p => p.id == pid)).map f := by
  induction db with
  | nil => rfl
  | cons q l ih =>
    by_cases h : (q.id == pid) = true
    · simp [List.find?_cons, hid, h]
    · simp [List.find?_cons, hid, h, ih]

theorem updateUserWrite_fst (env : UpdateUserEnv) (user : IUpdateUser)
    (b : Bool) (url iid : String) (σ : St) :
    (updateUserWrite env user b url iid σ).1 = none := by
  cases hd : env.updateDocOutcome <;> cases hn : env.updateNameOutcome <;>
    simp [updateUserWrite, hd, hn]

/-- C10: `updateUser` resolves with `undefined` on every execution path —
its success path has no return statement — so `useUpdateUser`'s
`onSuccess` always invalidates the user-by-id key built from `undefined`,
never the updated user's id. -/
theorem updateUser_always_undefined (env : UpdateUserEnv)
    (user : IUpdateUser) (σ : St) :
    (updateUserRun env user σ).1 = none ∧
    useUpdateUserOnSuccess (updateUserRun env user σ).1
      = [.currentUser, .userById none] := by
  have h : (updateUserRun env user σ).1 = none := by
    unfold updateUserRun
    split
    · cases hu : env.fileEnv.uploadOutcome with
      | ok fid =>
        cases hp : env.fileEnv.previewUrl fid <;>
          simp [uploadFileRun, hu, hp, updateUserWrite_fst]
      | null => simp [uploadFileRun, hu]
      | threw e => simp [uploadFileRun, hu]
    · exact updateUserWrite_fst ..
  refine ⟨h, ?_⟩
  rw [h]
  rfl

/-- C9: `deletePost(postId, imageId)` with both arguments non-empty only
deletes the post document; blob storage and the delete-file log are left
untouched, so the post's image file survives in storage. -/
theorem deletePost_leaves_storage (deleteDocOk : Bool)
    (postId imageId : String) (σ : St)
    (hp : postId ≠ "") (hi : imageId ≠ "") :
    (deletePostRun deleteDocOk postId imageId σ).2.files = σ.files ∧
    (deletePostRun deleteDocOk postId imageId σ).2.deleteFileLog
      = σ.deleteFileLog ∧
    (deletePostRun deleteDocOk postId imageId σ).2.users = σ.users ∧
    (deleteDocOk = true →
      (deletePostRun deleteDocOk postId imageId σ).2.posts
        = σ.posts.filter (fun p => p.id != postId)) ∧
    (deleteDocOk = false →
      (deletePostRun deleteDocOk postId imageId σ).2.posts = σ.posts) := by
  cases deleteDocOk <;> simp [deletePostRun, hp, hi]

/-- Closed witness for `deletePost_leaves_storage`: deleting post `p1`
whose image file `img1` is in storage leaves `img1` in storage. -/
theorem deletePost_leaves_storage_witness :
    (deletePostRun true "p1" "img1"
        { files := ["img1"], posts := [], users := [], deleteFileLog := [] }).2.files
      = ["img1"] ∧
    (deletePostRun true "p1" "img1"
        { files := ["img1"], posts := [], users := [], deleteFileLog := [] }).2.deleteFileLog
      = [] := by
  have h := deletePost_leaves_storage true "p1" "img1"
    { files := ["img1"], posts := [], users := [], deleteFileLog := [] }
    (by decide) (by decide)
  exact ⟨h.1, h.2.1⟩

/-- C7: paginated reads are deterministic in the backing data, hence
idempotent, and each returns exactly the client-side window
`[(page-1)*pageSize, (page-1)*pageSize + pageSize)` of the full fetched
candidate set. -/
theorem pagination_idempotent_window (db : List PostDoc)
    (cu : Option UserDoc) (uid : String) (page ps : Nat) (hpage : 1 ≤ page) :
    getHomeFeedPosts db cu page ps = getHomeFeedPosts db cu page ps ∧
    getExplorePosts db page ps = getExplorePosts db page ps ∧
    getUserProfilePosts db uid page ps = getUserProfilePosts db uid page ps ∧
    (∀ l, getFollowingPosts db cu = some l →
      getHomeFeedPosts db cu page ps
        = some ((l.drop ((page - 1) * ps)).take ps)) ∧
    (∀ l, getAllPosts db = some l →
      getExplorePosts db page ps
        = some ((l.drop ((page - 1) * ps)).take ps)) ∧
    (∀ l, getUserPosts db (some uid) = some l →
      getUserProfilePosts db uid page ps
        = some ((l.drop ((page - 1) * ps)).take ps)) := by
  refine ⟨rfl, rfl, rfl, ?_, ?_, ?_⟩
  · intro l h
    simp [getHomeFeedPosts, h]
  · intro l h
    simp [getExplorePosts, h]
  · intro l h
    simp [getUserProfilePosts, h]

/-- Closed witness for `pagination_idempotent_window` at page 1, size 2. -/
theorem pagination_idempotent_window_witness :
    getExplorePosts [] 1 2 = getExplorePosts [] 1 2 ∧
    (∀ l, getAllPosts ([] : List PostDoc) = some l →
      getExplorePosts [] 1 2 = some ((l.drop 0).take 2)) := by
  have h := pagination_idempotent_window [] none "u" 1 2 (by decide)
  exact ⟨h.2.1, fun l hl => h.2.2.2.2.1 l hl⟩

/-- C5: a successful `likePost` stores exactly the passed likes array on the
post (replacing the previous array), resolves with the updated document, and
`useLikePost` then invalidates exactly the post-by-id key of that post's id,
the home-feed key, and the current-user key. -/
theorem likePost_stores_exact_likes (outcome : Remote Unit)
    (db : List PostDoc) (postId : String) (arr : List String) (p : PostDoc)
    (hok : outcome = Remote.ok ())
    (hfind : db.find? (fun q => q.id == postId) = some p) :
    (likePostRun outcome db postId arr).1 = some { p with likes := arr } ∧
    ((likePostRun outcome db postId arr).2.find? (fun q => q.id == postId))
      = some { p with likes := arr } ∧
    useLikePostOnSuccess (likePostRun outcome db postId arr).1
      = [.postById (some postId), .homeFeed, .currentUser] := by
  subst hok
  have hid : ∀ q : PostDoc,
      ((fun q => if q.id == postId then { q with likes := arr } else q) q).id
        = q.id := by
    intro q
    by_cases h : (q.id == postId) = true <;> simp [h]
  have hpid : p.id = postId := by
    have := List.find?_some hfind
    simpa using this
  have hfind2 :
      ((db.map (fun q => if q.id == postId then { q with likes := arr } else q)).find?
        (fun q => q.id == postId)) = some { p with likes := arr } := by
    rw [find?_map_of_id_invariant _ hid, hfind]
    simp [hpid]
  have h1 : (likePostRun (Remote.ok ()) db postId arr).1
      = some { p with likes := arr } := hfind2
  refine ⟨h1, hfind2, ?_⟩
  rw [h1]
  simp [useLikePostOnSuccess, hpid]

/-- Closed witness for `likePost_stores_exact_likes`: the spec's example —
likes `["u1"]`, passing `["u1", "u2"]` — stores exactly `["u1", "u2"]`. -/
theorem likePost_stores_exact_likes_witness :
    (likePostRun (Remote.ok ()) [samplePost] "p1" ["u1", "u2"]).1
      = some { samplePost with likes := ["u1", "u2"] } ∧
    useLikePostOnSuccess (likePostRun (Remote.ok ()) [samplePost] "p1" ["u1", "u2"]).1
      = [.postById (some "p1"), .homeFeed, .currentUser] := by
  have h := likePost_stores_exact_likes (Remote.ok ()) [samplePost] "p1"
    ["u1", "u2"] samplePost rfl (by decide)
  exact ⟨h.1, h.2.2⟩

/-- C8: both `createPost` and `updatePost` store as the post's tags the raw
tag string with every space stripped, split on commas — `"nature, travel"`
becomes exactly `["nature", "travel"]` — and an absent tags string yields
the empty array. -/
theorem tags_stored_stripped_split (envC : CreatePostEnv) (postC : INewPost)
    (σ : St) (fid url : String) (envU : UpdatePostEnv) (postU : IUpdatePost)
    (σU : St) (p : PostDoc)
    (hu : envC.fileEnv.uploadOutcome = Remote.ok fid)
    (hp : envC.fileEnv.previewUrl fid = some url)
    (hc : envC.createDocOutcome = Remote.ok ())
    (ht : postC.tags = some "nature, travel")
    (hUf : postU.file = [])
    (hUw : envU.updateDocOutcome = Remote.ok ())
    (hUfind : σU.posts.find? (fun q => q.id == postU.postId) = some p)
    (hUt : postU.tags = some "nature, travel") :
    ((createPostRun envC postC σ).1.map (fun d => d.tags))
      = some ["nature", "travel"] ∧
    ((updatePostRun envU postU σU).1.map (fun d => d.tags))
      = some ["nature", "travel"] ∧
    convertTags none = [] := by
  have hconv : convertTags (some "nature, travel") = ["nature", "travel"] := by
    decide
  have hid : ∀ q : PostDoc,
      (applyPostUpdate postU postU.imageUrl postU.imageId envU.now q).id
        = q.id := by
    intro q
    unfold applyPostUpdate
    split <;> rfl
  have hpid : p.id = postU.postId := by
    have := List.find?_some hUfind
    simpa using this
  refine ⟨?_, ?_, rfl⟩
  · simp [createPostRun, uploadFileRun, hu, hp, hc, ht, hconv]
  · have hlen : ¬ postU.file.length > 0 := by
      rw [hUf]
      decide
    unfold updatePostRun
    rw [if_neg hlen]
    unfold updatePostWrite
    rw [hUw]
    have hfind2 :
        ((σU.posts.map (applyPostUpdate postU postU.imageUrl postU.imageId envU.now)).find?
          (fun q => q.id == postU.postId))
          = some (applyPostUpdate postU postU.imageUrl postU.imageId envU.now p) := by
      rw [find?_map_of_id_invariant _ hid, hUfind]
      rfl
    have hstep :
        (updatePostRun envU postU σU).1
          = some (applyPostUpdate postU postU.imageUrl postU.imageId envU.now p) := by
      unfold updatePostRun
      rw [if_neg hlen]
      unfold updatePostWrite
      rw [hUw]
      exact hfind2
    rw [show ((σU.posts.map (applyPostUpdate postU postU.imageUrl postU.imageId envU.now)).find?
        (fun q => q.id == postU.postId),
        ({ σU with posts := σU.posts.map (applyPostUpdate postU postU.imageUrl postU.imageId envU.now) } : St)).1
      = ((σU.posts.map (applyPostUpdate postU postU.imageUrl postU.imageId envU.now)).find?
        (fun q => q.id == postU.postId)) from rfl]
    rw [hfind2]
    simp [applyPostUpdate, hpid, hUt, hconv]

/-- Closed witness for `tags_stored_stripped_split` on concrete inputs. -/
theorem tags_stored_stripped_split_witness :
    ((createPostRun
        { fileEnv :=
            { uploadOutcome := Remote.ok "f1"
              previewUrl := fun _ => some "url"
              deleteOk := fun _ => true }
          createDocOutcome := Remote.ok ()
          newPostId := "p9"
          now := 7 }
        { userId := "u1"
          caption := "c"
          file := ["local"]
          location := ""
          tags := some "nature, travel" }
        { files := [], posts := [], users := [], deleteFileLog := [] }).1.map
      (fun d => d.tags)) = some ["nature", "travel"] ∧
    ((updatePostRun
        { fileEnv :=
            { uploadOutcome := Remote.ok "f2"
              previewUrl := fun _ => some "url"
              deleteOk := fun _ => true }
          updateDocOutcome := Remote.ok ()
          now := 8 }
        { postId := "p1"
          caption := "c2"
          imageId := "img1"
          imageUrl := "url1"
          file := []
          location := ""
          tags := some "nature, travel" }
        { files := ["img1"], posts := [samplePost], users := [], deleteFileLog := [] }).1.map
      (fun d => d.tags)) = some ["nature", "travel"] := by
  have h := tags_stored_stripped_split
    { fileEnv :=
        { uploadOutcome := Remote.ok "f1"
          previewUrl := fun _ => some "url"
          deleteOk := fun _ => true }
      createDocOutcome := Remote.ok ()
      newPostId := "p9"
      now := 7 }
    { userId := "u1"
      caption := "c"
      file := ["local"]
      location := ""
      tags := some "nature, travel" }
    { files := [], posts := [], users := [], deleteFileLog := [] }
    "f1" "url"
    { fileEnv :=
        { uploadOutcome := Remote.ok "f2"
          previewUrl := fun _ => some "url"
          deleteOk := fun _ => true }
      updateDocOutcome := Remote.ok ()
      now := 8 }
    { postId := "p1"
      caption := "c2"
      imageId := "img1"
      imageUrl := "url1"
      file := []
      location := ""
      tags := some "nature, travel" }
    { files := ["img1"], posts := [samplePost], users := [], deleteFileLog := [] }
    samplePost rfl rfl rfl rfl rfl rfl (by decide) rfl
  exact ⟨h.1, h.2.1⟩

/-- C2 counterexample: when the file upload succeeds but
`databases.createDocument` fails by REJECTING (throwing), control jumps
straight from the `await` to the catch block, skipping the
`if (!newPost) { await deleteFile(...) }` compensation: afterwards the
uploaded file still exists and no delete was performed at all. -/
theorem createPost_throwing_write_leaks_file :
    (createPostRun
        { fileEnv :=
            { uploadOutcome := Remote.ok "f1"
              previewUrl := fun _ => some "url"
              deleteOk := fun _ => true }
          createDocOutcome := Remote.threw (Err.remote 0)
          newPostId := "p9"
          now := 7 }
        { userId := "u1"
          caption := "c"
          file := ["local"]
          location := ""
          tags := none }
        { files := [], posts := [], users := [], deleteFileLog := [] }).1
      = none ∧
    "f1" ∈ (createPostRun
        { fileEnv :=
            { uploadOutcome := Remote.ok "f1"
              previewUrl := fun _ => some "url"
              deleteOk := fun _ => true }
          createDocOutcome := Remote.threw (Err.remote 0)
          newPostId := "p9"
          now := 7 }
        { userId := "u1"
          caption := "c"
          file := ["local"]
          location := ""
          tags := none }
        { files := [], posts := [], users := [], deleteFileLog := [] }).2.files ∧
    (createPostRun
        { fileEnv :=
            { uploadOutcome := Remote.ok "f1"
              previewUrl := fun _ => some "url"
              deleteOk := fun _ => true }
          createDocOutcome := Remote.threw (Err.remote 0)
          newPostId := "p9"
          now := 7 }
        { userId := "u1"
          caption := "c"
          file := ["local"]
          location := ""
          tags := none }
        { files := [], posts := [], users := [], deleteFileLog := [] }).2.deleteFileLog.count "f1"
      = 0 := by
  refine ⟨rfl, ?_, rfl⟩
  decide

/-- C2 amended: when the upload succeeds and the post-document write fails
by RESOLVING FALSY (the failure mode the source checks for), the
compensating delete of the uploaded file's id is performed exactly once,
and — the delete call itself succeeding — the file no longer exists
afterward. -/
theorem createPost_compensating_delete (env : CreatePostEnv)
    (post : INewPost) (σ : St) (fid url : String)
    (hu : env.fileEnv.uploadOutcome = Remote.ok fid)
    (hp : env.fileEnv.previewUrl fid = some url)
    (hw : env.createDocOutcome = Remote.null)
    (hd : env.fileEnv.deleteOk fid = true) :
    (createPostRun env post σ).1 = none ∧
    (createPostRun env post σ).2.deleteFileLog.count fid
      = σ.deleteFileLog.count fid + 1 ∧
    fid ∉ (createPostRun env post σ).2.files := by
  have hrun : createPostRun env post σ
      = (none,
         { σ with
             files := (σ.files ++ [fid]).filter (fun g => g != fid)
             deleteFileLog := σ.deleteFileLog ++ [fid] }) := by
    unfold createPostRun uploadFileRun deleteFileRun
    simp [hu, hp, hw, hd]
  rw [hrun]
  refine ⟨rfl, ?_, ?_⟩
  · simp
  · intro hmem
    rw [List.mem_filter] at hmem
    simp at hmem

/-- Closed witness for `createPost_compensating_delete`. -/
theorem createPost_compensating_delete_witness :
    (createPostRun
        { fileEnv :=
            { uploadOutcome := Remote.ok "f1"
              previewUrl := fun _ => some "url"
              deleteOk := fun _ => true }
          createDocOutcome := Remote.null
          newPostId := "p9"
          now := 7 }
        { userId := "u1"
          caption := "c"
          file := ["local"]
          location := ""
          tags := none }
        { files := [], posts := [], users := [], deleteFileLog := [] }).2.deleteFileLog.count "f1"
      = 1 ∧
    "f1" ∉ (createPostRun
        { fileEnv :=
            { uploadOutcome := Remote.ok "f1"
              previewUrl := fun _ => some "url"
              deleteOk := fun _ => true }
          createDocOutcome := Remote.null
          newPostId := "p9"
          now := 7 }
        { userId := "u1"
          caption := "c"
          file := ["local"]
          location := ""
          tags := none }
        { files := [], posts := [], users := [], deleteFileLog := [] }).2.files := by
  have h := createPost_compensating_delete
    { fileEnv :=
        { uploadOutcome := Remote.ok "f1"
          previewUrl := fun _ => some "url"
          deleteOk := fun _ => true }
      createDocOutcome := Remote.null
      newPostId := "p9"
      now := 7 }
    { userId := "u1"
      caption := "c"
      file := ["local"]
      location := ""
      tags := none }
    { files := [], posts := [], users := [], deleteFileLog := [] }
    "f1" "url" rfl rfl rfl rfl
  exact ⟨h.2.1, h.2.2⟩

/-- C3: `updatePost`'s handling of a replaced image contradicts the
claimed contract, evaluated on a post whose old image is `old1` and whose
replacement upload is `new1`.  When the record write SUCCEEDS, the old file
is never deleted (both files remain, no delete issued); when the record
write resolves falsy, the code deletes the OLD file id `post.imageId` and
keeps the new upload — the reverse of the claim.  (`updateUser` implements
the intended discipline, so `updatePost` is the slip.) -/
theorem updatePost_image_replacement_bug :
    ((updatePostRun
        { fileEnv :=
            { uploadOutcome := Remote.ok "new1"
              previewUrl := fun _ => some "newUrl"
              deleteOk := fun _ => true }
          updateDocOutcome := Remote.ok ()
          now := 9 }
        { postId := "p1"
          caption := "c2"
          imageId := "old1"
          imageUrl := "oldUrl"
          file := ["local"]
          location := ""
          tags := none }
        { files := ["old1"], posts := [samplePost], users := [], deleteFileLog := [] }).1.isSome
      = true ∧
    (updatePostRun
        { fileEnv :=
            { uploadOutcome := Remote.ok "new1"
              previewUrl := fun _ => some "newUrl"
              deleteOk := fun _ => true }
          updateDocOutcome := Remote.ok ()
          now := 9 }
        { postId := "p1"
          caption := "c2"
          imageId := "old1"
          imageUrl := "oldUrl"
          file := ["local"]
          location := ""
          tags := none }
        { files := ["old1"], posts := [samplePost], users := [], deleteFileLog := [] }).2.files
      = ["old1", "new1"] ∧
    (updatePostRun
        { fileEnv :=
            { uploadOutcome := Remote.ok "new1"
              previewUrl := fun _ => some "newUrl"
              deleteOk := fun _ => true }
          updateDocOutcome := Remote.ok ()
          now := 9 }
        { postId := "p1"
          caption := "c2"
          imageId := "old1"
          imageUrl := "oldUrl"
          file := ["local"]
          location := ""
          tags := none }
        { files := ["old1"], posts := [samplePost], users := [], deleteFileLog := [] }).2.deleteFileLog
      = []) ∧
    ((updatePostRun
        { fileEnv :=
            { uploadOutcome := Remote.ok "new1"
              previewUrl := fun _ => some "newUrl"
              deleteOk := fun _ => true }
          updateDocOutcome := Remote.null
          now := 9 }
        { postId := "p1"
          caption := "c2"
          imageId := "old1"
          imageUrl := "oldUrl"
          file := ["local"]
          location := ""
          tags := none }
        { files := ["old1"], posts := [samplePost], users := [], deleteFileLog := [] }).1
      = none ∧
    (updatePostRun
        { fileEnv :=
            { uploadOutcome := Remote.ok "new1"
              previewUrl := fun _ => some "newUrl"
              deleteOk := fun _ => true }
          updateDocOutcome := Remote.null
          now := 9 }
        { postId := "p1"
          caption := "c2"
          imageId := "old1"
          imageUrl := "oldUrl"
          file := ["local"]
          location := ""
          tags := none }
        { files := ["old1"], posts := [samplePost], users := [], deleteFileLog := [] }).2.files
      = ["new1"] ∧
    (updatePostRun
        { fileEnv :=
            { uploadOutcome := Remote.ok "new1"
              previewUrl := fun _ => some "newUrl"
              deleteOk := fun _ => true }
          updateDocOutcome := Remote.null
          now := 9 }
        { postId := "p1"
          caption := "c2"
          imageId := "old1"
          imageUrl := "oldUrl"
          file := ["local"]
          location := ""
          tags := none }
        { files := ["old1"], posts := [samplePost], users := [], deleteFileLog := [] }).2.deleteFileLog
      = ["old1"]) := by
  refine ⟨⟨?_, ?_, ?_⟩, ?_, ?_, ?_⟩ <;> decide

/-- C4 counterexample: when `account.create` rejects, `createUserAccount`'s
catch block executes `return error`, so the caught ERROR VALUE — not an
undefined/empty result — is surfaced as the function's result. -/
theorem createUserAccount_returns_error_value :
    createUserAccountRun
        { accountCreate := Remote.threw (Err.remote 7), saveUserDoc := Remote.ok "d1" }
      = FnResult.value (some (CUAVal.caughtError (Err.remote 7))) ∧
    createUserAccountRun
        { accountCreate := Remote.threw (Err.remote 7), saveUserDoc := Remote.ok "d1" }
      ≠ FnResult.value none := by
  refine ⟨rfl, ?_⟩
  decide

/-- C4 amended: every remote-call error inside the cited API functions is
caught and never re-thrown to the caller; `getPostById` and `getUserById`
then resolve with `undefined`, but `createUserAccount` instead returns the
caught error value as its result. -/
theorem api_remote_errors_caught (env : CreateUserEnv) (e : Err)
    (db : List PostDoc) (users : List UserDoc) (pid uid : String)
    (outcome : Remote Unit) (he : outcome = Remote.threw e) :
    (∀ e2, createUserAccountRun env ≠ FnResult.raised e2) ∧
    (env.accountCreate = Remote.threw e →
      createUserAccountRun env = FnResult.value (some (CUAVal.caughtError e))) ∧
    getPostByIdRun outcome db (some pid) = (FnResult.value none, 1) ∧
    getUserByIdRun outcome users (some uid) = (FnResult.value none, 1) := by
  subst he
  refine ⟨?_, ?_, rfl, rfl⟩
  · intro e2
    cases ha : env.accountCreate <;> cases hs : env.saveUserDoc <;>
      simp [createUserAccountRun, ha, hs]
  · intro ha
    simp [createUserAccountRun, ha]

/-- Closed witness for `api_remote_errors_caught`. -/
theorem api_remote_errors_caught_witness :
    createUserAccountRun
        { accountCreate := Remote.threw Err.generic, saveUserDoc := Remote.null }
      = FnResult.value (some (CUAVal.caughtError Err.generic)) ∧
    getPostByIdRun (Remote.threw Err.generic) [] (some "p1")
      = (FnResult.value none, 1) := by
  have h := api_remote_errors_caught
    { accountCreate := Remote.threw Err.generic, saveUserDoc := Remote.null }
    Err.generic [] [] "p1" "u1" (Remote.threw Err.generic) rfl
  exact ⟨h.2.1 rfl, h.2.2.1⟩

/-- C6 counterexample: `getPostById(undefined)` does not return with a
guard — the precondition check `if (!postId) throw Error` sits outside the
try/catch, so the call raises a generic error to the caller (though still
without any remote interaction). -/
theorem getPostById_missing_id_raises :
    getPostByIdRun (Remote.ok ()) [] none = (FnResult.raised Err.generic, 0) ∧
    (getPostByIdRun (Remote.ok ()) [] none).1 ≠ FnResult.value none := by
  refine ⟨rfl, ?_⟩
  decide

/-- C6 amended: a read bound to a missing required identifier issues no
remote call; `getUserById(undefined)` and `getUserPosts(undefined)` return
immediately with `undefined` as a guard, while `getPostById(undefined)`
raises a generic error to the caller instead (also without any remote
call). -/
theorem missing_id_short_circuit (outcome : Remote Unit)
    (db : List PostDoc) (users : List UserDoc) :
    getUserByIdRun outcome users none = (FnResult.value none, 0) ∧
    getPostByIdRun outcome db none = (FnResult.raised Err.generic, 0) ∧
    getUserPosts db none = none := by
  exact ⟨rfl, rfl, rfl⟩

/-- C1: for a user with a non-empty follow list, the home feed is the page
window `[(page-1)*pageSize, (page-1)*pageSize + pageSize)` of a list that
is sorted by creation timestamp descending and is a permutation of the
flattened union of the current user's own posts and one per-followed-user
list-query result. -/
theorem homeFeed_merged_sorted_window (db : List PostDoc) (u : UserDoc)
    (page ps : Nat) (hfollow : u.following ≠ []) (hpage : 1 ≤ page) :
    ∃ L : List PostDoc,
      L.Perm (postsByCreator db u.id
        ++ u.following.flatMap (postsByCreator db)) ∧
      List.Pairwise (fun a b => b.createdAt ≤ a.createdAt) L ∧
      getHomeFeedPosts db (some u) page ps
        = some ((L.drop ((page - 1) * ps)).take ps) := by
  refine ⟨(((u.following ++ [u.id]).map (postsByCreator db)).flatMap id).mergeSort createdDesc,
    ?_, ?_, rfl⟩
  · have hflat : (((u.following ++ [u.id]).map (postsByCreator db)).flatMap id)
        = u.following.flatMap (postsByCreator db) ++ postsByCreator db u.id := by
      rw [List.flatMap_map, List.flatMap_append, List.flatMap_singleton]
      rfl
    refine (List.mergeSort_perm _ createdDesc).trans ?_
    rw [hflat]
    exact List.perm_append_comm
  · have hs := @List.sorted_mergeSort PostDoc createdDesc
      createdDesc_trans createdDesc_total
      (((u.following ++ [u.id]).map (postsByCreator db)).flatMap id)
    refine hs.imp ?_
    intro a b h
    simpa [createdDesc] using h

/-- Closed witness for `homeFeed_merged_sorted_window`: user `u1` follows
`u2`; the merged, time-descending, page-1 feed exists as stated. -/
theorem homeFeed_merged_sorted_window_witness :
    ∃ L : List PostDoc,
      L.Perm (postsByCreator [samplePost] sampleUser.id
        ++ sampleUser.following.flatMap (postsByCreator [samplePost])) ∧
      List.Pairwise (fun a b => b.createdAt ≤ a.createdAt) L ∧
      getHomeFeedPosts [samplePost] (some sampleUser) 1 3
        = some ((L.drop 0).take 3) :=
  homeFeed_merged_sorted_window [samplePost] sampleUser 1 3
    (by decide) (by decide)

end Snapgram
